import Mathlib

/-!
Shallow embedding of the RateMyStore-server authentication and CRUD layer.

The JavaScript source is embedded as executable Lean definitions:
HTTP handlers become pure functions from an explicit request/state to a
result value (and, for writes, the updated store state); the external
libraries (jsonwebtoken, Prisma, Joi, bcrypt) are modelled at the exact
granularity the handlers use them.
-/

namespace RateMyStore

/-- The Prisma `Role` enum: `ADMIN`, `NORMAL_USER`, `STORE_OWNER`. -/
inductive Role where
  | ADMIN
  | NORMAL_USER
  | STORE_OWNER
deriving DecidableEq, Repr

/-- A row of the `user` table, restricted to the columns the handlers touch. -/
structure User where
  id : Nat
  email : String
  name : String
  role : Role
  password : String
deriving DecidableEq, Repr

/-- A JWT payload as the two issuance flows build it: registration's
`generateToken` signs `\x7b userId \x7d`, while `loginUser` signs
`\x7b id, role \x7d`.  Absent fields are `none` (JavaScript `undefined`). -/
structure Payload where
  userId : Option Nat
  id : Option Nat
  role : Option Role
deriving DecidableEq, Repr

/-- A token value: either a payload signed with some secret (with an
expiry flag telling whether its embedded expiry has passed by the time it
is presented), or a string that is not a well-formed JWT at all. -/
inductive Token where
  | signed (payload : Payload) (secret : String) (expired : Bool)
  | malformed (raw : String)
deriving DecidableEq, Repr

/-- `jwt.verify(token, secret)`: succeeds with the decoded payload exactly
when the token is well-formed, signed with `secret`, and unexpired;
otherwise it throws (modelled as `Except.error`). -/
def jwtVerify (t : Token) (secret : String) : Except String Payload :=
  match t with
  | .signed p s expired => if s = secret ∧ expired = false then .ok p else .error "jwt error"
  | .malformed _ => .error "jwt error"

/-- `jwt.sign(payload, secret, ...)`: a freshly issued (unexpired) token. -/
def jwtSign (p : Payload) (secret : String) : Token :=
  .signed p secret false

/-- `generateToken` from the auth controller:
`jwt.sign(\x7b userId \x7d, process.env.JWT_SECRET, \x7b expiresIn ... \x7d)`. -/
def generateToken (secret : String) (userId : Nat) : Token :=
  jwtSign { userId := some userId, id := none, role := none } secret

/-- `prisma.user.findUnique(\x7b where: \x7b id \x7d \x7d)` as used by the middleware
with `decoded.userId`.  When the argument is `undefined` (`none`), Prisma
rejects the query by throwing a validation error rather than returning
`null`, so the result is `Except.error`; with a concrete id it returns the
matching row or `null` (`none`). -/
def findUserById (db : List User) (oid : Option Nat) : Except String (Option User) :=
  match oid with
  | none => .error "PrismaClientValidationError"
  | some i => .ok (db.find? (fun u => u.id == i))

/-- The object `verifyToken` attaches as `req.user` on success: the
`select \x7b id, email, name, role \x7d` projection of the live user row. -/
structure AuthCtx where
  id : Nat
  email : String
  name : String
  role : Role
deriving DecidableEq, Repr

/-- The four exits of `verifyToken`: the three early `401` returns and the
success path that calls `next()` with `req.user` set. -/
inductive VerifyOutcome where
  | unauthorized
  | invalidToken
  | userNotFound
  | success (ctx : AuthCtx)
deriving DecidableEq, Repr

/-- HTTP status of a `verifyToken` exit (`none` = no response written,
`next()` was called). -/
def VerifyOutcome.status : VerifyOutcome → Option Nat
  | .unauthorized => some 401
  | .invalidToken => some 401
  | .userNotFound => some 401
  | .success _ => none

/-- JSON `message` body of a `verifyToken` exit. -/
def VerifyOutcome.message : VerifyOutcome → Option String
  | .unauthorized => some "Unauthorized."
  | .invalidToken => some "Invalid token."
  | .userNotFound => some "User not found"
  | .success _ => none

/-- Whether the exit is the success path. -/
def VerifyOutcome.isSuccess : VerifyOutcome → Bool
  | .success _ => true
  | _ => false

/-- `req.headers.authorization?.split(" ")[1]`: the second space-separated
word of the header, `none` when the header is absent or has no second word
(splitting on every single space, as JavaScript `split(" ")` does, so
consecutive spaces produce empty words). -/
def extractToken (authHeader : Option String) : Option String :=
  match authHeader with
  | none => none
  | some h => ((h.toList.splitOn ' ').map (fun cs => String.mk cs)).get? 1

/-- JavaScript truthiness test `!token` on the extracted word:
`undefined` and the empty string are falsy. -/
def tokenFalsy : Option String → Bool
  | none => true
  | some s => s == ""

/-- The result of one run of the middleware, together with which of its
side steps were reached: whether `jwt.verify` was invoked and whether the
Credential Store (`prisma.user.findUnique`) was queried. -/
structure VerifyTrace where
  outcome : VerifyOutcome
  sigChecked : Bool
  storeQueried : Bool
deriving DecidableEq, Repr

/-- `verifyToken` middleware.  `decode` maps the raw token string carried
in the header to the token value it denotes (the inverse of JWT
serialization; garbage strings map to `Token.malformed`).  Control flow
mirrors the source: falsy extracted token → 401 "Unauthorized.";
`jwt.verify` throw → 401 "Invalid token." (the `catch` also swallows the
Prisma validation throw on an `undefined` id); user row absent → 401
"User not found"; otherwise `req.user` is set to the live row's
projection and `next()` runs. -/
def verifyToken (decode : String → Token) (secret : String) (db : List User)
    (authHeader : Option String) : VerifyTrace :=
  let token := extractToken authHeader
  if tokenFalsy token then
    { outcome := .unauthorized, sigChecked := false, storeQueried := false }
  else
    match jwtVerify (decode (token.getD "")) secret with
    | .error _ => { outcome := .invalidToken, sigChecked := true, storeQueried := false }
    | .ok decoded =>
      match findUserById db decoded.userId with
      | .error _ => { outcome := .invalidToken, sigChecked := true, storeQueried := true }
      | .ok none => { outcome := .userNotFound, sigChecked := true, storeQueried := true }
      | .ok (some u) =>
        { outcome := .success { id := u.id, email := u.email, name := u.name, role := u.role },
          sigChecked := true, storeQueried := true }

/-- The three exits of the gate returned by `requireRole`. -/
inductive GateOutcome where
  | authRequired
  | forbidden
  | pass
deriving DecidableEq, Repr

/-- HTTP status of a gate exit (`none` = `next()` was called). -/
def GateOutcome.status : GateOutcome → Option Nat
  | .authRequired => some 401
  | .forbidden => some 403
  | .pass => none

/-- `requireRole(roles)` applied to the request state `req.user`:
no context → 401 "Authentication required"; role not in the list →
403 "Insufficient permissions"; otherwise `next()`. -/
def requireRole (roles : List Role) (reqUser : Option AuthCtx) : GateOutcome :=
  match reqUser with
  | none => .authRequired
  | some u => if u.role ∈ roles then .pass else .forbidden

/-- A login request body, after JSON parsing. -/
structure LoginReq where
  email : String
  password : String
deriving DecidableEq, Repr

/-- `loginSchema` (Joi): `email` must satisfy Joi's email format (modelled
by the parameter `emailOk`, since the format test lives in the Joi
library) and `password` must be a present, non-empty string
(`Joi.string().required()`). -/
def loginSchemaOk (emailOk : String → Bool) (r : LoginReq) : Bool :=
  emailOk r.email && !(r.password == "")

/-- The exits of `loginUser`: 400 with a message, or 200 with the signed
token and the user record (sans password, here represented by its id). -/
inductive LoginResult where
  | badRequest (message : String)
  | success (token : Token) (userId : Nat)
deriving DecidableEq, Repr

/-- HTTP status of a `loginUser` exit. -/
def LoginResult.status : LoginResult → Nat
  | .badRequest _ => 400
  | .success _ _ => 200

/-- `loginUser`: validate the body, look the user up by email, and sign
`\x7b id: user.id, role: user.role \x7d` with the server secret.  The
`bcrypt.compare` password check in the source is commented out, so no
branch of this function inspects `r.password` beyond the schema's
non-empty test. -/
def loginUser (emailOk : String → Bool) (secret : String) (db : List User)
    (r : LoginReq) : LoginResult :=
  if loginSchemaOk emailOk r = false then
    .badRequest "validation error"
  else
    match db.find? (fun u => u.email == r.email) with
    | none => .badRequest "Invalid email or password."
    | some user =>
      .success (jwtSign { userId := none, id := some user.id, role := some user.role } secret)
        user.id

/-- A registration request body, after JSON parsing.  `role` is typed as
the Prisma enum because `registerSchema` rejects any string outside
`valid("ADMIN", "NORMAL_USER", "STORE_OWNER")`; `none` means the field
was omitted. -/
structure RegisterReq where
  name : String
  email : String
  password : String
  address : Option String
  role : Option Role
deriving DecidableEq, Repr

/-- `registerSchema` (Joi): name length 2..50, email format and password
strength delegated to the Joi library (parameters `emailOk`,
`passwordOk`), optional address of length ≤ 200.  A provided `role` is
always one of the three valid enum values by typing; when omitted, Joi
substitutes the declared `default("NORMAL_USER")` (applied at the use
site via `Option.getD`). -/
def registerSchemaOk (emailOk passwordOk : String → Bool) (r : RegisterReq) : Bool :=
  decide (2 ≤ r.name.length) && decide (r.name.length ≤ 50)
    && emailOk r.email && passwordOk r.password
    && (match r.address with
        | none => true
        | some a => decide (a.length ≤ 200))

/-- The exits of `registerUser`: 400 with a message, 500 (the `catch`
branch), or 201 with the issued token. -/
inductive RegisterResult where
  | badRequest (message : String)
  | serverError (message : String)
  | created (token : Token)
deriving DecidableEq, Repr

/-- HTTP status of a `registerUser` exit. -/
def RegisterResult.status : RegisterResult → Nat
  | .badRequest _ => 400
  | .serverError _ => 500
  | .created _ => 201

/-- `registerUser`: validate, reject duplicate emails, create the row with
the (defaulted) requested role and the bcrypt hash of the password
(`hash` models `bcrypt.hash(·, 10)`), then execute
`const token = generateToken(user.id)`.  That line reads the binding
`user`, which is not declared anywhere in the module (the created row is
bound to `newUser`), so JavaScript throws a ReferenceError after the row
is already committed; the `catch` converts it to a 500
"Server error creating user." response, and the 201 branch below it is
unreachable.  The function returns the response paired with the user
table after the handler ran. -/
def registerUser (emailOk passwordOk : String → Bool) (hash : String → String)
    (db : List User) (freshId : Nat) (r : RegisterReq) : RegisterResult × List User :=
  if registerSchemaOk emailOk passwordOk r = false then
    (.badRequest "validation error", db)
  else if (db.find? (fun u => u.email == r.email)).isSome then
    (.badRequest "User already exists with this email.", db)
  else
    let newUser : User :=
      { id := freshId, email := r.email, name := r.name,
        role := r.role.getD Role.NORMAL_USER, password := hash r.password }
    (.serverError "Server error creating user.", db ++ [newUser])

/-- A row of the `store` table, restricted to the columns `createRating`
touches. -/
structure Store where
  id : Nat
  ownerId : Nat
deriving DecidableEq, Repr

/-- A row of the `rating` table.  The composite unique key
`userId_storeId` backs `findUnique` in `createRating`. -/
structure Rating where
  id : Nat
  userId : Nat
  storeId : Nat
  rating : Nat
deriving DecidableEq, Repr

/-- The exits of `createRating`. -/
inductive RatingResult where
  | badRequest (message : String)
  | notFound
  | updated
  | created
deriving DecidableEq, Repr

/-- HTTP status of a `createRating` exit:
`res.status(existingRating ? 200 : 201)`. -/
def RatingResult.status : RatingResult → Nat
  | .badRequest _ => 400
  | .notFound => 404
  | .updated => 200
  | .created => 201

/-- Number of rating rows carrying a given `(userId, storeId)` pair. -/
def countPair (ratings : List Rating) (u s : Nat) : Nat :=
  (ratings.filter (fun r => r.userId == u && r.storeId == s)).length

/-- `createRating` for requester `uid` (`req.user.id`): validate the body
(`rating` an integer in 1..5), check the store exists, forbid rating one's
own store, then `findUnique` on the composite key `userId_storeId`; if a
row exists, `update` it in place by its primary id (200), else `create` a
new row (201).  Returns the response paired with the rating table after
the handler ran. -/
def createRating (stores : List Store) (ratings : List Rating) (freshId : Nat)
    (uid storeId ratingVal : Nat) : RatingResult × List Rating :=
  if ¬ (1 ≤ ratingVal ∧ ratingVal ≤ 5) then
    (.badRequest "validation error", ratings)
  else
    match stores.find? (fun s => s.id == storeId) with
    | none => (.notFound, ratings)
    | some store =>
      if store.ownerId = uid then
        (.badRequest "You cannot rate your own store", ratings)
      else
        match ratings.find? (fun rr => rr.userId == uid && rr.storeId == storeId) with
        | some existingRating =>
          (.updated,
           ratings.map (fun rr =>
             if rr.id = existingRating.id then { rr with rating := ratingVal } else rr))
        | none =>
          (.created, ratings ++ [{ id := freshId, userId := uid, storeId := storeId,
                                   rating := ratingVal }])

/-- The exits of `deleteUserByAdmin`. -/
inductive DeleteResult where
  | notFound
  | selfDelete
  | deleted
deriving DecidableEq, Repr

/-- HTTP status of a `deleteUserByAdmin` exit (the success path answers
with a plain `res.json`, status 200). -/
def DeleteResult.status : DeleteResult → Nat
  | .notFound => 404
  | .selfDelete => 400
  | .deleted => 200

/-- `deleteUserByAdmin` with `callerId = req.user.id` and `targetId` the
parsed path parameter: 404 when the target row is absent, 400
"You cannot delete your own account" when the target equals the caller,
otherwise delete the row.  Returns the response paired with the user
table after the handler ran. -/
def deleteUserByAdmin (db : List User) (callerId targetId : Nat) :
    DeleteResult × List User :=
  match db.find? (fun u => u.id == targetId) with
  | none => (.notFound, db)
  | some _ =>
    if targetId = callerId then
      (.selfDelete, db)
    else
      (.deleted, db.filter (fun u => ¬ u.id == targetId))

/-! ## Theorems -/

/-- Claim C1: for every protected request whose bearer token has a valid
signature and whose subject id resolves to an existing user, `verifyToken`
attaches an Authenticated Context built from the current database record
(id, email, name, role as stored now), not from the token's embedded
payload: the payload `p` is arbitrary here — in particular its embedded
`role` snapshot is unconstrained — and the attached context's role equals
the live record's role. -/
theorem verifyToken_attaches_live_record (decode : String → Token) (secret : String)
    (db : List User) (header : Option String) (s : String) (p : Payload)
    (uid : Nat) (u : User)
    (hs : extractToken header = some s) (hne : s ≠ "")
    (hdec : decode s = Token.signed p secret false)
    (huid : p.userId = some uid)
    (hfind : db.find? (fun v => v.id == uid) = some u) :
    verifyToken decode secret db header =
      { outcome := .success { id := u.id, email := u.email, name := u.name, role := u.role },
        sigChecked := true, storeQueried := true } ∧
    ∀ ctx, (verifyToken decode secret db header).outcome = .success ctx → ctx.role = u.role := by
  have hmain : verifyToken decode secret db header =
      { outcome := .success { id := u.id, email := u.email, name := u.name, role := u.role },
        sigChecked := true, storeQueried := true } := by
    unfold verifyToken
    rw [hs]
    simp only [tokenFalsy, Option.getD_some]
    rw [if_neg (by simp [hne])]
    rw [hdec]
    simp [jwtVerify, findUserById, huid, hfind]
  refine ⟨hmain, ?_⟩
  intro ctx hctx
  rw [hmain] at hctx
  cases hctx
  rfl

/-- Witness for C1: a concrete store, secret and token on which the
hypotheses hold and the middleware attaches the live record. -/
theorem verifyToken_attaches_live_record_witness :
    verifyToken
      (fun s => if s = "tok" then
          Token.signed { userId := some 5, id := none, role := some Role.ADMIN } "sec" false
        else Token.malformed s)
      "sec"
      [{ id := 5, email := "eve@example.com", name := "Eve", role := Role.NORMAL_USER,
         password := "h" }]
      (some "Bearer tok") =
      { outcome := .success { id := 5, email := "eve@example.com", name := "Eve",
                              role := Role.NORMAL_USER },
        sigChecked := true, storeQueried := true } :=
  (verifyToken_attaches_live_record
    (fun s => if s = "tok" then
        Token.signed { userId := some 5, id := none, role := some Role.ADMIN } "sec" false
      else Token.malformed s)
    "sec"
    [{ id := 5, email := "eve@example.com", name := "Eve", role := Role.NORMAL_USER,
       password := "h" }]
    (some "Bearer tok") "tok"
    { userId := some 5, id := none, role := some Role.ADMIN } 5
    { id := 5, email := "eve@example.com", name := "Eve", role := Role.NORMAL_USER,
      password := "h" }
    (by decide) (by decide) (by decide) rfl (by decide)).1

/-- Claim C4: the gate returned by `requireRole` passes iff an
Authenticated Context is present and its role is in the allowed list;
an absent context fails with 401, a present context with a role outside
the list fails with 403; it never passes with an absent context. -/
theorem requireRole_gate_correct (roles : List Role) (octx : Option AuthCtx) :
    ((requireRole roles octx = .pass) ↔ ∃ u, octx = some u ∧ u.role ∈ roles) ∧
    (octx = none →
      (requireRole roles octx).status = some 401) ∧
    (∀ u, octx = some u → u.role ∉ roles →
      (requireRole roles octx).status = some 403) := by
  refine ⟨?_, ?_, ?_⟩
  · constructor
    · intro hp
      match octx with
      | none => simp [requireRole] at hp
      | some u =>
        refine ⟨u, rfl, ?_⟩
        by_contra hmem
        simp [requireRole, hmem] at hp
    · rintro ⟨u, rfl, hmem⟩
      simp [requireRole, hmem]
  · rintro rfl
    rfl
  · rintro u rfl hmem
    simp [requireRole, hmem, GateOutcome.status]

/-- Witness for C4: with allow-list `[ADMIN]`, an absent context yields
401, a `NORMAL_USER` context yields 403, and an `ADMIN` context passes. -/
theorem requireRole_gate_correct_witness :
    (requireRole [Role.ADMIN] (none : Option AuthCtx)).status = some 401 ∧
    (requireRole [Role.ADMIN]
      (some { id := 1, email := "e", name := "n", role := Role.NORMAL_USER })).status =
        some 403 ∧
    requireRole [Role.ADMIN]
      (some { id := 1, email := "e", name := "n", role := Role.ADMIN }) = .pass := by
  refine ⟨(requireRole_gate_correct [Role.ADMIN] none).2.1 rfl, ?_, ?_⟩
  · exact (requireRole_gate_correct [Role.ADMIN]
      (some { id := 1, email := "e", name := "n", role := Role.NORMAL_USER })).2.2
      { id := 1, email := "e", name := "n", role := Role.NORMAL_USER } rfl (by decide)
  · exact (requireRole_gate_correct [Role.ADMIN]
      (some { id := 1, email := "e", name := "n", role := Role.ADMIN })).1.mpr
      ⟨{ id := 1, email := "e", name := "n", role := Role.ADMIN }, rfl, by decide⟩

/-- A concrete user for the token round-trip scenario. -/
def c2User : User :=
  { id := 1, email := "alice@example.com", name := "Alice", role := Role.NORMAL_USER,
    password := "h" }

/-- The token `loginUser` issues for `c2User`: it signs
`\x7b id: user.id, role: user.role \x7d` — no `userId` field. -/
def c2LoginToken : Token :=
  jwtSign { userId := none, id := some 1, role := some Role.NORMAL_USER } "sec"

/-- Token-string denotations for the round-trip scenario: `"lt"` is the
login-issued token, `"rt"` the registration-flow `generateToken` token. -/
def c2Decode : String → Token :=
  fun s =>
    if s = "lt" then c2LoginToken
    else if s = "rt" then generateToken "sec" 1
    else Token.malformed s

/-- Claim C2 (refuted by the code, a code bug): `loginUser` signs the
payload `\x7b id, role \x7d`, but `verifyToken` looks the subject up via
`decoded.userId`, which a login token leaves `undefined`, so Prisma
throws and the request ends 401 "Invalid token." — the login-issued token
never resolves to an Authenticated Context even though user 1 exists.
The registration flow's `generateToken`, which does sign `userId`,
round-trips correctly, witnessing that the middleware and the login flow
disagree about the payload field. -/
theorem login_token_fails_verification :
    loginUser (fun _ => true) "sec" [c2User]
        { email := "alice@example.com", password := "pw" } = .success c2LoginToken 1 ∧
    (verifyToken c2Decode "sec" [c2User] (some "Bearer lt")).outcome = .invalidToken ∧
    (∀ ctx, (verifyToken c2Decode "sec" [c2User] (some "Bearer lt")).outcome ≠
      .success ctx) ∧
    (verifyToken c2Decode "sec" [c2User] (some "Bearer rt")).outcome =
      .success { id := 1, email := "alice@example.com", name := "Alice",
                 role := Role.NORMAL_USER } := by
  have h2 : (verifyToken c2Decode "sec" [c2User] (some "Bearer lt")).outcome =
      .invalidToken := by decide
  refine ⟨by decide, h2, ?_, by decide⟩
  intro ctx h
  rw [h2] at h
  exact VerifyOutcome.noConfusion h

/-- Token-string denotations for the failure-indistinguishability
scenario: `"ghost"` is validly signed for subject 7, who is absent from
the store. -/
def c3Decode : String → Token :=
  fun s =>
    if s = "ghost" then jwtSign { userId := some 7, id := none, role := none } "sec"
    else Token.malformed s

/-- Claim C3 counterexample: a missing-token request and a
stale-identity request both fail with status 401, but the first answers
message "Unauthorized." and the second "User not found" — the message
bodies differ, so a caller can distinguish the causes and the claim of
externally identical responses is false. -/
theorem verifyToken_failure_messages_differ :
    (verifyToken c3Decode "sec" [] none).outcome.isSuccess = false ∧
    (verifyToken c3Decode "sec" [] (some "Bearer ghost")).outcome.isSuccess = false ∧
    (verifyToken c3Decode "sec" [] none).outcome.status = some 401 ∧
    (verifyToken c3Decode "sec" [] (some "Bearer ghost")).outcome.status = some 401 ∧
    (verifyToken c3Decode "sec" [] none).outcome.message = some "Unauthorized." ∧
    (verifyToken c3Decode "sec" [] (some "Bearer ghost")).outcome.message =
      some "User not found" ∧
    (verifyToken c3Decode "sec" [] none).outcome.message ≠
      (verifyToken c3Decode "sec" [] (some "Bearer ghost")).outcome.message := by
  decide

/-- Claim C3 amended: every failing `verifyToken` request — missing
token, malformed or mis-signed or expired token, or stale identity —
receives the same status code 401, but the message bodies differ by
cause ("Unauthorized.", "Invalid token.", "User not found"), so the
status alone does not reveal the cause while the message does. -/
theorem verifyToken_failures_share_status (decode : String → Token) (secret : String)
    (db : List User) (header : Option String)
    (h : (verifyToken decode secret db header).outcome.isSuccess = false) :
    (verifyToken decode secret db header).outcome.status = some 401 := by
  generalize ho : (verifyToken decode secret db header).outcome = o at h ⊢
  cases o with
  | unauthorized => rfl
  | invalidToken => rfl
  | userNotFound => rfl
  | success ctx => simp [VerifyOutcome.isSuccess] at h

/-- Witness for amended C3: a concrete failing request gets status 401. -/
theorem verifyToken_failures_share_status_witness :
    (verifyToken c3Decode "sec" [] none).outcome.status = some 401 :=
  verifyToken_failures_share_status c3Decode "sec" [] none (by decide)

/-- A concrete user for the wrong-scheme scenario. -/
def c5User : User :=
  { id := 9, email := "bob@example.com", name := "Bob", role := Role.NORMAL_USER,
    password := "h" }

/-- Token-string denotations for the wrong-scheme scenario: `"vt"` is a
validly signed token for subject 9. -/
def c5Decode : String → Token :=
  fun s => if s = "vt" then generateToken "sec" 9 else Token.malformed s

/-- Claim C5 counterexample: the middleware never inspects the scheme
word — it takes `split(" ")[1]` whatever the first word is.  With header
`Token vt` (wrong scheme, validly signed second word) it checks the
signature, queries the store, and succeeds, refuting both the claimed
immediate 401 and the claimed absence of processing; with the spec's own
scenario `Token abc` the signature check is likewise performed (it then
fails with "Invalid token.", not the missing-token response). -/
theorem wrong_scheme_header_is_processed :
    verifyToken c5Decode "sec" [c5User] (some "Token vt") =
      { outcome := .success { id := 9, email := "bob@example.com", name := "Bob",
                              role := Role.NORMAL_USER },
        sigChecked := true, storeQueried := true } ∧
    (verifyToken c5Decode "sec" [c5User] (some "Token vt")).outcome.status ≠ some 401 ∧
    (verifyToken c5Decode "sec" [c5User] (some "Token abc")).sigChecked = true ∧
    (verifyToken c5Decode "sec" [c5User] (some "Token abc")).outcome = .invalidToken := by
  decide

/-- Claim C5 amended: `verifyToken` fails immediately with 401 and
performs no signature check and no store lookup exactly when the second
space-separated word of the Authorization header is absent or empty
(covering an absent header and a one-word header); whenever a non-empty
second word is present — regardless of the scheme word, e.g.
`Token abc` — the signature check is performed on that word. -/
theorem verifyToken_immediate_fail_iff_no_second_word (decode : String → Token)
    (secret : String) (db : List User) (header : Option String) :
    (tokenFalsy (extractToken header) = true →
      verifyToken decode secret db header =
        { outcome := .unauthorized, sigChecked := false, storeQueried := false }) ∧
    (tokenFalsy (extractToken header) = false →
      (verifyToken decode secret db header).sigChecked = true) := by
  constructor
  · intro h
    simp [verifyToken, h]
  · intro h
    simp only [verifyToken, h, Bool.false_eq_true, if_false]
    split
    · rfl
    · split <;> rfl

/-- Witness for amended C5: an absent header exits immediately with no
processing, and the wrong-scheme header `Token abc` reaches the
signature check. -/
theorem verifyToken_immediate_fail_iff_no_second_word_witness :
    verifyToken c5Decode "sec" [c5User] none =
      { outcome := .unauthorized, sigChecked := false, storeQueried := false } ∧
    (verifyToken c5Decode "sec" [c5User] (some "Token abc")).sigChecked = true :=
  ⟨(verifyToken_immediate_fail_iff_no_second_word c5Decode "sec" [c5User] none).1
      (by decide),
   (verifyToken_immediate_fail_iff_no_second_word c5Decode "sec" [c5User]
      (some "Token abc")).2 (by decide)⟩

/-- A schema-valid registration request with a fresh email and no
explicit role. -/
def c6Req : RegisterReq :=
  { name := "Alice", email := "alice@example.com", password := "Aa1@xyz",
    address := none, role := none }

/-- Claim C6 (refuted by the code, a code bug): on a valid registration
with a fresh email the handler creates the user row, but the next line
`const token = generateToken(user.id)` reads the undeclared binding
`user` (the row is bound to `newUser`), so a ReferenceError is thrown
and the `catch` answers 500 "Server error creating user." — never the
claimed 201 with a token.  Evaluated here on an empty store: the row is
committed, yet the response is the 500 exit. -/
theorem register_responds_500_not_201 :
    registerUser (fun _ => true) (fun _ => true) (fun p => String.append "bcrypt:" p)
        [] 1 c6Req =
      (.serverError "Server error creating user.",
       [{ id := 1, email := "alice@example.com", name := "Alice",
          role := Role.NORMAL_USER, password := "bcrypt:Aa1@xyz" }]) ∧
    (registerUser (fun _ => true) (fun _ => true) (fun p => String.append "bcrypt:" p)
        [] 1 c6Req).1.status = 500 ∧
    (∀ t, (registerUser (fun _ => true) (fun _ => true)
        (fun p => String.append "bcrypt:" p) [] 1 c6Req).1 ≠ .created t) := by
  have hmain : registerUser (fun _ => true) (fun _ => true)
      (fun p => String.append "bcrypt:" p) [] 1 c6Req =
      (.serverError "Server error creating user.",
       [{ id := 1, email := "alice@example.com", name := "Alice",
          role := Role.NORMAL_USER, password := "bcrypt:Aa1@xyz" }]) := by decide
  refine ⟨hmain, by rw [hmain]; rfl, ?_⟩
  intro t h
  rw [hmain] at h
  exact RegisterResult.noConfusion h

/-- A schema-valid registration request that self-assigns the `ADMIN`
role. -/
def c7Req : RegisterReq :=
  { name := "Mallory", email := "mallory@example.com", password := "Aa1@xyz",
    address := none, role := some Role.ADMIN }

/-- Claim C7 counterexample: `registerSchema` accepts a caller-supplied
`role` (any of the three enum values, with `NORMAL_USER` only as the
default for an omitted field), and `registerUser` stores it verbatim — a
registration request carrying `role: "ADMIN"` creates a user whose
stored role is `ADMIN`, not `NORMAL_USER`, with no admin update
involved. -/
theorem register_stores_requested_admin_role :
    (registerUser (fun _ => true) (fun _ => true) (fun p => p) [] 1 c7Req).2 =
      [{ id := 1, email := "mallory@example.com", name := "Mallory",
         role := Role.ADMIN, password := "Aa1@xyz" }] ∧
    Role.ADMIN ≠ Role.NORMAL_USER := by decide

/-- Claim C7 amended: for every user created through the registration
endpoint, the stored role is the role carried by the request when one is
supplied (any of `ADMIN`, `NORMAL_USER`, `STORE_OWNER`), and the default
`NORMAL_USER` exactly when the request omits the role field — so a
non-default role can arise directly from the registration request
itself, not only from an admin update. -/
theorem register_role_is_request_role (emailOk passwordOk : String → Bool)
    (hash : String → String) (db : List User) (freshId : Nat) (r : RegisterReq)
    (hval : registerSchemaOk emailOk passwordOk r = true)
    (hfresh : (db.find? (fun u => u.email == r.email)).isSome = false) :
    (registerUser emailOk passwordOk hash db freshId r).2 =
      db ++ [{ id := freshId, email := r.email, name := r.name,
               role := r.role.getD Role.NORMAL_USER, password := hash r.password }] ∧
    (r.role = none →
      (r.role.getD Role.NORMAL_USER) = Role.NORMAL_USER) ∧
    (∀ ρ, r.role = some ρ → (r.role.getD Role.NORMAL_USER) = ρ) := by
  refine ⟨?_, ?_, ?_⟩
  · simp [registerUser, hval, hfresh]
  · intro h; rw [h]; rfl
  · intro ρ h; rw [h]; rfl

/-- Witness for amended C7: the concrete `ADMIN`-carrying request is
stored with role `ADMIN`. -/
theorem register_role_is_request_role_witness :
    (registerUser (fun _ => true) (fun _ => true) (fun p => p) [] 1 c7Req).2 =
      [] ++ [{ id := 1, email := "mallory@example.com", name := "Mallory",
               role := (some Role.ADMIN).getD Role.NORMAL_USER, password := "Aa1@xyz" }] :=
  (register_role_is_request_role (fun _ => true) (fun _ => true) (fun p => p)
    [] 1 c7Req (by decide) (by decide)).1

/-- Claim C8: `loginUser` never consults the candidate password beyond
the schema's non-empty test — the `bcrypt.compare` call is commented
out.  For every schema-valid request whose email matches a stored user,
the response is 200 with the token signed for that user; and any two
schema-valid requests with the same email (any passwords) produce
identical results. -/
theorem login_outcome_ignores_password (emailOk : String → Bool) (secret : String)
    (db : List User) (r1 r2 : LoginReq) (u : User)
    (h1 : loginSchemaOk emailOk r1 = true) (h2 : loginSchemaOk emailOk r2 = true)
    (heq : r1.email = r2.email)
    (hfind : db.find? (fun v => v.email == r1.email) = some u) :
    loginUser emailOk secret db r1 =
      .success (jwtSign { userId := none, id := some u.id, role := some u.role } secret)
        u.id ∧
    (loginUser emailOk secret db r1).status = 200 ∧
    loginUser emailOk secret db r1 = loginUser emailOk secret db r2 := by
  have e1 : loginUser emailOk secret db r1 =
      .success (jwtSign { userId := none, id := some u.id, role := some u.role } secret)
        u.id := by
    simp [loginUser, h1, hfind]
  have e2 : loginUser emailOk secret db r2 =
      .success (jwtSign { userId := none, id := some u.id, role := some u.role } secret)
        u.id := by
    rw [heq] at hfind
    simp [loginUser, h2, hfind]
  exact ⟨e1, by rw [e1]; rfl, by rw [e1, e2]⟩

/-- Witness for C8: two concrete login requests for the same stored user
differing only in password both succeed with the same token. -/
theorem login_outcome_ignores_password_witness :
    loginUser (fun _ => true) "sec" [c2User]
        { email := "alice@example.com", password := "right-password" } =
      .success (jwtSign { userId := none, id := some 1, role := some Role.NORMAL_USER }
        "sec") 1 ∧
    loginUser (fun _ => true) "sec" [c2User]
        { email := "alice@example.com", password := "right-password" } =
      loginUser (fun _ => true) "sec" [c2User]
        { email := "alice@example.com", password := "totally-wrong" } := by
  have h := login_outcome_ignores_password (fun _ => true) "sec" [c2User]
    { email := "alice@example.com", password := "right-password" }
    { email := "alice@example.com", password := "totally-wrong" }
    c2User (by decide) (by decide) rfl (by decide)
  exact ⟨h.1, h.2.2⟩

/-- Mapping a pair-preserving function over the rating table leaves every
`(userId, storeId)` multiplicity unchanged. -/
theorem countPair_map (f : Rating → Rating)
    (hf : ∀ rr, (f rr).userId = rr.userId ∧ (f rr).storeId = rr.storeId)
    (l : List Rating) (u s : Nat) :
    countPair (l.map f) u s = countPair l u s := by
  induction l with
  | nil => rfl
  | cons hd tl ih =>
    have h1 : ((f hd).userId == u && (f hd).storeId == s)
        = (hd.userId == u && hd.storeId == s) := by
      rw [(hf hd).1, (hf hd).2]
    unfold countPair at ih ⊢
    rw [List.map_cons, List.filter_cons, List.filter_cons, h1]
    by_cases hp : (hd.userId == u && hd.storeId == s) = true
    · rw [if_pos hp, if_pos hp]
      simpa using ih
    · rw [if_neg hp, if_neg hp]
      exact ih

/-- Appending one rating row adds one to the multiplicity of its own
`(userId, storeId)` pair and leaves every other pair unchanged. -/
theorem countPair_append_single (l : List Rating) (x : Rating) (u s : Nat) :
    countPair (l ++ [x]) u s =
      countPair l u s + (if (x.userId == u && x.storeId == s) = true then 1 else 0) := by
  unfold countPair
  rw [List.filter_append, List.length_append]
  congr 1
  by_cases hp : (x.userId == u && x.storeId == s) = true
  · rw [if_pos hp]
    simp [List.filter_cons, hp]
  · rw [if_neg hp]
    simp [List.filter_cons, hp]

/-- When `findUnique` on the composite key comes back empty, the pair has
multiplicity zero. -/
theorem countPair_zero_of_find_none (l : List Rating) (u s : Nat)
    (h : l.find? (fun rr => rr.userId == u && rr.storeId == s) = none) :
    countPair l u s = 0 := by
  unfold countPair
  rw [List.length_eq_zero, List.filter_eq_nil_iff]
  intro a ha
  simpa using List.find?_eq_none.mp h a ha

/-- When the pair has positive multiplicity, `findUnique` on the
composite key returns a row. -/
theorem find_isSome_of_countPair_pos (l : List Rating) (u s : Nat)
    (h : 1 ≤ countPair l u s) :
    (l.find? (fun rr => rr.userId == u && rr.storeId == s)).isSome = true := by
  rw [List.find?_isSome]
  unfold countPair at h
  have hne : l.filter (fun rr => rr.userId == u && rr.storeId == s) ≠ [] := by
    intro hnil
    rw [hnil] at h
    exact absurd h (by simp)
  obtain ⟨x, hx⟩ := List.exists_mem_of_ne_nil _ hne
  obtain ⟨hmem, hpred⟩ := List.mem_filter.mp hx
  exact ⟨x, hmem, hpred⟩

/-- Claim C9: `createRating` preserves the invariant that at most one
rating row exists per `(userId, storeId)` pair.  On a valid request
(schema-valid rating, existing store, not the requester's own store):
when the requester has already rated the store the existing row is
updated in place — response 200, table length unchanged — and otherwise
exactly one new row is created — response 201, table length + 1; in both
cases every pair's multiplicity stays ≤ 1. -/
theorem createRating_one_per_pair (stores : List Store) (ratings : List Rating)
    (freshId uid storeId ratingVal : Nat) (store : Store)
    (hval : 1 ≤ ratingVal ∧ ratingVal ≤ 5)
    (hstore : stores.find? (fun s => s.id == storeId) = some store)
    (hown : store.ownerId ≠ uid)
    (hinv : ∀ u s, countPair ratings u s ≤ 1) :
    (∀ u s,
      countPair (createRating stores ratings freshId uid storeId ratingVal).2 u s ≤ 1) ∧
    (1 ≤ countPair ratings uid storeId →
      (createRating stores ratings freshId uid storeId ratingVal).1 = .updated ∧
      (createRating stores ratings freshId uid storeId ratingVal).1.status = 200 ∧
      (createRating stores ratings freshId uid storeId ratingVal).2.length =
        ratings.length) ∧
    (countPair ratings uid storeId = 0 →
      (createRating stores ratings freshId uid storeId ratingVal).1 = .created ∧
      (createRating stores ratings freshId uid storeId ratingVal).1.status = 201 ∧
      (createRating stores ratings freshId uid storeId ratingVal).2.length =
        ratings.length + 1) := by
  have hred : createRating stores ratings freshId uid storeId ratingVal =
      (match ratings.find? (fun rr => rr.userId == uid && rr.storeId == storeId) with
       | some existingRating =>
         (.updated,
          ratings.map (fun rr =>
            if rr.id = existingRating.id then { rr with rating := ratingVal } else rr))
       | none =>
         (.created, ratings ++ [{ id := freshId, userId := uid, storeId := storeId,
                                  rating := ratingVal }])) := by
    unfold createRating
    rw [if_neg (not_not_intro hval), hstore]
    simp only [if_neg hown]
  cases hfind : ratings.find? (fun rr => rr.userId == uid && rr.storeId == storeId) with
  | some ex =>
    rw [hfind] at hred
    have hcount1 : 1 ≤ countPair ratings uid storeId := by
      have hmem := List.mem_of_find?_eq_some hfind
      have hpred := List.find?_some hfind
      have hx : ex ∈ ratings.filter (fun rr => rr.userId == uid && rr.storeId == storeId) :=
        List.mem_filter.mpr ⟨hmem, hpred⟩
      unfold countPair
      exact List.length_pos.mpr (List.ne_nil_of_mem hx)
    refine ⟨?_, ?_, ?_⟩
    · intro u s
      rw [hred]
      have hpres : ∀ rr : Rating,
          ((if rr.id = ex.id then { rr with rating := ratingVal } else rr) : Rating).userId
            = rr.userId ∧
          ((if rr.id = ex.id then { rr with rating := ratingVal } else rr) : Rating).storeId
            = rr.storeId := by
        intro rr
        by_cases h : rr.id = ex.id <;> simp [h]
      rw [countPair_map _ hpres]
      exact hinv u s
    · intro _
      rw [hred]
      exact ⟨rfl, rfl, by simp⟩
    · intro h0
      omega
  | none =>
    rw [hfind] at hred
    have hzero : countPair ratings uid storeId = 0 :=
      countPair_zero_of_find_none ratings uid storeId hfind
    refine ⟨?_, ?_, ?_⟩
    · intro u s
      rw [hred]
      rw [countPair_append_single]
      by_cases hp : ((uid == u && storeId == s) = true)
      · have huv : u = uid ∧ s = storeId := by
          constructor <;> [skip; skip] <;>
            · have := hp
              simp only [Bool.and_eq_true, beq_iff_eq] at this
              omega
        rw [huv.1, huv.2, hzero]
        simp [hp]
      · simp only [hp, if_false]
        simpa using hinv u s
    · intro h1
      omega
    · intro _
      rw [hred]
      exact ⟨rfl, rfl, by simp⟩

/-- Witness for C9: on an empty rating table, user 2 rating store 1
creates exactly one row with status 201. -/
theorem createRating_one_per_pair_witness :
    (createRating [{ id := 1, ownerId := 99 }] [] 1 2 1 5).1 = .created ∧
    (createRating [{ id := 1, ownerId := 99 }] [] 1 2 1 5).2.length = 0 + 1 := by
  have h := createRating_one_per_pair [{ id := 1, ownerId := 99 }] [] 1 2 1 5
    { id := 1, ownerId := 99 } (by decide) (by decide) (by decide)
    (fun u s => Nat.zero_le 1)
  exact ⟨(h.2.2 rfl).1, (h.2.2 rfl).2.2⟩

/-- Claim C10: `deleteUserByAdmin` refuses with status 400 and deletes
nothing when the target id equals the caller's own id (the caller's row
being present, as it is for any authenticated request); and the deleting
exit is taken only when the target row exists and the target differs
from the caller. -/
theorem deleteUserByAdmin_no_self_delete (db : List User) (callerId targetId : Nat)
    (hc : (db.find? (fun u => u.id == callerId)).isSome = true) :
    deleteUserByAdmin db callerId callerId = (.selfDelete, db) ∧
    (deleteUserByAdmin db callerId callerId).1.status = 400 ∧
    ((deleteUserByAdmin db callerId targetId).1 = .deleted →
      (db.find? (fun u => u.id == targetId)).isSome = true ∧ targetId ≠ callerId) := by
  have hself : deleteUserByAdmin db callerId callerId = (.selfDelete, db) := by
    unfold deleteUserByAdmin
    cases hfind : db.find? (fun u => u.id == callerId) with
    | none =>
      rw [hfind] at hc
      exact absurd hc (by simp)
    | some u =>
      rw [if_pos rfl]
  refine ⟨hself, by rw [hself]; rfl, ?_⟩
  intro hdel
  unfold deleteUserByAdmin at hdel
  cases hfind : db.find? (fun u => u.id == targetId) with
  | none =>
    rw [hfind] at hdel
    exact absurd hdel (by simp)
  | some u =>
    rw [hfind] at hdel
    by_cases ht : targetId = callerId
    · rw [if_pos ht] at hdel
      exact absurd hdel (by simp)
    · exact ⟨rfl, ht⟩

/-- Witness for C10: an admin (user 1, present in the store) targeting
their own id is refused with the 400 exit and the table is unchanged. -/
theorem deleteUserByAdmin_no_self_delete_witness :
    deleteUserByAdmin [c2User] 1 1 = (.selfDelete, [c2User]) :=
  (deleteUserByAdmin_no_self_delete [c2User] 1 1 (by decide)).1

end RateMyStore
